import Mathlib

/-!
Verification of the task-tracking backend (FastAPI application under `app/`).

The Python source is shallowly embedded: each handler becomes a pure Lean
function over an explicit store (`DB`), HTTP failures become
`Except HTTPError`, and `datetime` values become integer timestamps.
External library primitives (hashlib's SHA-256, the JWT HMAC) are modelled
as concrete deterministic Lean functions; no claim below depends on their
internals beyond determinism of hashing and unforgeability-by-equality of
the signature check.
-/

namespace App

/-- `models.UserRole` (models.py): three-valued role enum. -/
inductive UserRole
  | USER
  | ADMIN
  | SUPERADMIN
deriving DecidableEq, Repr

/-- `role.value` strings as stored in JWT payloads (models.py: "user"/"admin"/"superadmin"). -/
def UserRole.value : UserRole → String
  | .USER => "user"
  | .ADMIN => "admin"
  | .SUPERADMIN => "superadmin"

/-- `models.TaskStatus` (models.py). -/
inductive TaskStatus
  | TODO
  | IN_PROGRESS
  | DONE
  | CANCELLED
deriving DecidableEq, Repr

/-- `models.TaskPriority` (models.py). -/
inductive TaskPriority
  | LOW
  | MEDIUM
  | HIGH
deriving DecidableEq, Repr

/-- `models.User` row: id, unique email, unique username, hashed password,
role (column default `UserRole.USER`), creation timestamp. -/
structure User where
  id : Nat
  email : String
  username : String
  hashed_password : String
  role : UserRole
  created_at : Int
deriving DecidableEq, Repr

/-- `models.Task` row; `deadline` is a nullable timestamp (`none` = SQL NULL),
`assignee_id` a nullable foreign key. -/
structure Task where
  id : Nat
  title : String
  description : Option String
  status : TaskStatus
  priority : TaskPriority
  deadline : Option Int
  created_at : Int
  author_id : Nat
  assignee_id : Option Nat
deriving DecidableEq, Repr

/-- `models.Comment` row. The SQLite engine used by `database.py` does not
enforce the `task_id` foreign key (FK pragma off by default), so a comment row
may reference a task id with no matching task. -/
structure Comment where
  id : Nat
  text : String
  created_at : Int
  task_id : Nat
  author_id : Nat
deriving DecidableEq, Repr

/-- The persistence store: the three tables. -/
structure DB where
  users : List User
  tasks : List Task
  comments : List Comment
deriving DecidableEq, Repr

/-- `fastapi.HTTPException`: status code and detail string. -/
structure HTTPError where
  status_code : Nat
  detail : String
deriving DecidableEq, Repr

/-- Deterministic string digest: model of `hashlib.sha256(s.encode()).hexdigest()`
(auth.py). The real function is an external library primitive; the model is an
arbitrary fixed deterministic function, which is all the code relies on
(digest-equality verification). -/
def sha256hex (s : String) : String :=
  toString (s.data.foldl (fun h c => (h * 131 + c.toNat + 7) % 1000000007) 5381)

/-- auth.py `hash_password`: SHA-256 hexdigest of the password. -/
def hash_password (password : String) : String :=
  sha256hex password

/-- auth.py `verify_password`: recompute the digest and compare for equality.
(The Python body returns `True` on match and falls through — returning `None`,
falsy — otherwise; modelled as the corresponding `Bool`.) -/
def verify_password (plain_password hashed_password : String) : Bool :=
  sha256hex plain_password == hashed_password

/-- JWT payload as built by auth.py `create_token`:
`{"sub": str(user_id), "role": role.value, "exp": ..., "iat": ...}`.
`sub` is serialized as a decimal string and parsed back with `int(...)`;
`role` is serialized as `role.value` and parsed back with `UserRole(...)`;
both round-trip exactly on payloads built by `create_token`, so the model
keeps the typed values. -/
structure Payload where
  sub : Nat
  role : UserRole
  exp : Int
  iat : Int
deriving DecidableEq, Repr

/-- Injective-enough rendering of a payload used by the signature model. -/
def payloadRender (p : Payload) : String :=
  toString p.sub ++ "," ++ p.role.value ++ "," ++ toString p.exp ++ "," ++ toString p.iat

/-- Model of the HS256 MAC over (payload, key): a concrete deterministic
function; signature verification is recomputation plus equality, exactly the
property `jwt.encode`/`jwt.decode` provide. -/
def sign (key : String) (p : Payload) : Nat :=
  (payloadRender p ++ "#" ++ key).data.foldl
    (fun h c => (h * 131 + c.toNat + 7) % 1000000007) 5381

/-- A signed token: payload plus MAC (model of the compact JWT string). -/
structure Jwt where
  payload : Payload
  sig : Nat
deriving DecidableEq, Repr

/-- Process-wide signing secret, `KEY = os.getenv("KEY")` (auth.py): fixed for
the lifetime of the process. -/
def KEY : String := "process-secret-key"

/-- `jwt.encode(payload, KEY, algorithm="HS256")`. -/
def jwtEncode (p : Payload) (key : String) : Jwt :=
  ⟨p, sign key p⟩

/-- Signature check performed by `jwt.decode`. -/
def jwtVerifySig (t : Jwt) (key : String) : Bool :=
  t.sig == sign key t.payload

/-- Errors raised by `jwt.decode` (both subclass `jwt.PyJWTError`). -/
inductive JwtError
  | invalid
  | expired
deriving DecidableEq, Repr

/-- `jwt.decode(token, key, algorithms=ALGORITHM, options={"verify_exp": ...})`:
rejects a bad signature; when `verify_exp` is on, rejects a token whose
embedded expiry is in the past (PyJWT raises once `exp < now`). -/
def jwtDecode (t : Jwt) (key : String) (now : Int) (verify_exp : Bool) :
    Except JwtError Payload :=
  if jwtVerifySig t key then
    if verify_exp && decide (t.payload.exp < now) then .error .expired
    else .ok t.payload
  else .error .invalid

/-- auth.py `TOKEN_EXPIRE_DAYS = 30`. -/
def TOKEN_EXPIRE_DAYS : Int := 30

/-- Seconds in a day; `timedelta(days=...)` converted to the integer timeline. -/
def daySeconds : Int := 86400

/-- auth.py `create_token(user_id, role)`: payload with subject, role,
`iat = now` and `exp = now + 30 days`, signed with the process key. -/
def create_token (now : Int) (user_id : Nat) (role : UserRole) : Jwt :=
  jwtEncode
    { sub := user_id
      role := role
      exp := now + TOKEN_EXPIRE_DAYS * daySeconds
      iat := now }
    KEY

/-- schemas.py `UserCreate`: email, username, password, and a caller-suppliable
`role` field defaulting to `UserRole.USER` (schemas.py line 14). -/
structure UserCreate where
  email : String
  username : String
  password : String
  role : UserRole
deriving DecidableEq, Repr

/-- Autoincrement primary key for the users table. -/
def nextUserId (db : DB) : Nat :=
  db.users.foldl (fun m u => max m u.id) 0 + 1

/-- auth.py `register`: reject a taken email with 400, otherwise hash the
password and insert `User(email=..., username=..., hashed_password=...)`.
The constructor call passes no `role`, so the column default `UserRole.USER`
from models.py applies; the `role` carried by `UserCreate` is never read. -/
def register (db : DB) (now : Int) (user_data : UserCreate) :
    Except HTTPError (DB × User) :=
  match db.users.find? (fun u => u.email == user_data.email) with
  | some _ => .error ⟨400, "Email already registered"⟩
  | none =>
    let password := hash_password user_data.password
    let user : User :=
      { id := nextUserId db
        email := user_data.email
        username := user_data.username
        hashed_password := password
        role := UserRole.USER
        created_at := now }
    .ok ({ db with users := db.users ++ [user] }, user)

/-- schemas.py `LoginRequest`. -/
structure LoginRequest where
  email : String
  password : String
deriving DecidableEq, Repr

/-- The observable outcome of a successful login: the response body token and
the `access_token` cookie set on the response (auth.py sets both to the same
freshly created token). -/
structure LoginResult where
  access_token : Jwt
  cookie : Option Jwt
deriving DecidableEq, Repr

/-- auth.py `login`: look the user up by email; if there is no such user or
the password digest does not match, raise 401 "Invalid credentials" (a single
`if not user or not verify_password(...)` — one uniform failure); otherwise
create a token, set it as the cookie and return it. -/
def login (db : DB) (now : Int) (login_data : LoginRequest) :
    Except HTTPError LoginResult :=
  match db.users.find? (fun u => u.email == login_data.email) with
  | none => .error ⟨401, "Invalid credentials"⟩
  | some user =>
    if !(verify_password login_data.password user.hashed_password) then
      .error ⟨401, "Invalid credentials"⟩
    else
      let access_token := create_token now user.id user.role
      .ok ⟨access_token, some access_token⟩

/-- auth.py `refresh`: 401 "No access token" when the cookie is absent;
otherwise decode with `options={"verify_exp": False}` — signature checked,
expiry explicitly bypassed. On any `PyJWTError` (bad signature): 401
"Invalid token". On success, mint a brand-new token for the same subject and
role and set it as the cookie. -/
def refresh (now : Int) (access_token : Option Jwt) : Except HTTPError Jwt :=
  match access_token with
  | none => .error ⟨401, "No access token"⟩
  | some t =>
    match jwtDecode t KEY now false with
    | .error _ => .error ⟨401, "Invalid token"⟩
    | .ok payload => .ok (create_token now payload.sub payload.role)

/-- users.py password-change payload processed by `update_user`
(`update_data['password']` with `.current_password` and `.new_password`). -/
structure PasswordChange where
  current_password : String
  new_password : String
deriving DecidableEq, Repr

/-- The `update_data` dict consumed by the handler body of users.py
`update_user` (lines 86-115); `none` = key absent. The body handles the keys
`email`, `username`, `role` and `password`; only the first three can actually
be produced by the declared request schema (see `SUPERADMINUserUpdate` and
`model_dump` below), which makes the `password` branch of the handler (lines
104-115) dead code at the endpoint level. -/
structure UpdateData where
  email : Option String
  username : Option String
  role : Option UserRole
  password : Option PasswordChange
deriving DecidableEq, Repr

/-- schemas.py `SUPERADMINUserUpdate` (lines 17-22): `UserUpdate` (optional
email and username) plus an optional `role`. It declares NO password field. -/
structure SUPERADMINUserUpdate where
  email : Option String
  username : Option String
  role : Option UserRole
deriving DecidableEq, Repr

/-- A PUT /users/{user_id} request body as sent on the wire: the JSON keys a
caller may include that are relevant here, including a `password` object the
declared schema does not accept. -/
structure UserUpdateBody where
  email : Option String
  username : Option String
  role : Option UserRole
  password : Option PasswordChange
deriving DecidableEq, Repr

/-- pydantic validation of the request body against `SUPERADMINUserUpdate`:
the model's default config ignores undeclared keys, so a `password` key in
the body is silently dropped; declared keys present in the body become set
fields. -/
def SUPERADMINUserUpdate.model_validate (body : UserUpdateBody) : SUPERADMINUserUpdate :=
  ⟨body.email, body.username, body.role⟩

/-- `user_data.model_dump(exclude_unset=True)` (users.py line 86) on the
declared schema: the dict carries at most the three declared keys; a
`password` key can never appear in it. -/
def model_dump (user_data : SUPERADMINUserUpdate) : UpdateData :=
  ⟨user_data.email, user_data.username, user_data.role, none⟩

/-- users.py `update_user`, email step (lines 88-92): if a new email is given
and differs from the target's, reject when a different existing actor already
holds it, otherwise assign it. -/
def applyEmail (db : DB) (user_id : Nat) (user : User) :
    Option String → Except HTTPError User
  | none => .ok user
  | some e =>
    if e ≠ user.email then
      match db.users.find? (fun x => x.email == e) with
      | some existing =>
        if existing.id ≠ user_id then .error ⟨400, "Email already registered"⟩
        else .ok { user with email := e }
      | none => .ok { user with email := e }
    else .ok user

/-- users.py `update_user`, role step (lines 97-103): a self role change is
rejected with 400; otherwise the requested role is assigned. -/
def applyRole (is_self_update : Bool) (user : User) :
    Option UserRole → Except HTTPError User
  | none => .ok user
  | some r =>
    if is_self_update then .error ⟨400, "Superadmin cannot change own role"⟩
    else .ok { user with role := r }

/-- users.py `update_user`, password step (lines 104-115): only a self change
is allowed, and only when the supplied current password verifies against the
acting user's stored hash; the stored hash is then replaced with the hash of
the new password. Any other-user password change is rejected with 400. -/
def applyPassword (is_self_update : Bool) (current_user user : User) :
    Option PasswordChange → Except HTTPError User
  | none => .ok user
  | some password_data =>
    if is_self_update then
      if !(verify_password password_data.current_password current_user.hashed_password) then
        .error ⟨400, "Current password is incorrect"⟩
      else .ok { user with hashed_password := hash_password password_data.new_password }
    else .error ⟨400, "Superadmin cannot change other users' passwords"⟩

/-- `db.commit()` for the privileged update: replace the target row with the
session's working record. -/
def commitUser (db : DB) (user_id : Nat) (user : User) : DB :=
  { db with users := db.users.map (fun x => if x.id == user_id then user else x) }

/-- users.py `update_user`, username step (lines 94-95): assign the username
when supplied. -/
def applyUsername (user : User) : Option String → User
  | none => user
  | some un => { user with username := un }

/-- users.py `update_user` (PUT /users/{user_id}): SUPERADMIN gate (403), target
lookup (404), then the email → username → role → password steps in order,
each raising on its rule; `db.commit()` runs only after all steps pass.
(The Python local `is_self_update = current_user.id == user_id` is inlined at
its two use sites.) -/
def update_user (db : DB) (user_id : Nat) (user_data : UpdateData)
    (current_user : User) : Except HTTPError (DB × User) :=
  if current_user.role ≠ UserRole.SUPERADMIN then
    .error ⟨403, "Superadmin role required"⟩
  else
    match db.users.find? (fun u => u.id == user_id) with
    | none => .error ⟨404, "User doesn't exist"⟩
    | some u0 =>
      match applyEmail db user_id u0 user_data.email with
      | .error e => .error e
      | .ok u1 =>
        match applyRole (current_user.id == user_id) (applyUsername u1 user_data.username)
            user_data.role with
        | .error e => .error e
        | .ok u3 =>
          match applyPassword (current_user.id == user_id) current_user u3
              user_data.password with
          | .error e => .error e
          | .ok u4 => .ok (commitUser db user_id u4, u4)

/-- The persistent store after a privileged-update request: the commit runs
only when no step raised; when a step raises, the request unwinds before
`db.commit()` and the session's uncommitted changes are discarded when
`get_db` closes it, leaving the store as it was. -/
def update_user_store (db : DB) (user_id : Nat) (user_data : UpdateData)
    (current_user : User) : DB :=
  match update_user db user_id user_data current_user with
  | .ok (db', _) => db'
  | .error _ => db

/-- The full PUT /users/{user_id} route: FastAPI validates the request body
against the declared `SUPERADMINUserUpdate` schema (dropping any undeclared
`password` key), dumps it with `exclude_unset=True`, and runs the handler
body on the resulting dict. -/
def update_user_route (db : DB) (user_id : Nat) (body : UserUpdateBody)
    (current_user : User) : Except HTTPError (DB × User) :=
  update_user db user_id (model_dump (SUPERADMINUserUpdate.model_validate body))
    current_user

/-- schemas.py `TaskCreate` (= `TaskBase`): `assignee_id` is declared
`Optional[int] = None`. -/
structure TaskCreate where
  title : String
  description : Option String
  status : TaskStatus
  priority : TaskPriority
  deadline : Option Int
  assignee_id : Option Nat
deriving DecidableEq, Repr

/-- schemas.py `TaskUpdate`: every field optional; `none` = key absent from
`up_task.dict(exclude_unset=True)`. -/
structure TaskUpdate where
  title : Option String
  description : Option String
  status : Option TaskStatus
  priority : Option TaskPriority
  deadline : Option Int
  assignee_id : Option Nat
deriving DecidableEq, Repr

/-- tasks.py `get_tasks` (GET /tasks/): chain of optional filters, then 404
when the result list is empty. Direct transcription, including:
`if author_id:` skips the filter for the falsy value 0; the SQL comparisons
`Task.deadline >= deadline_before` and `Task.deadline <= deadline_after`
never match a NULL deadline. -/
def get_tasks (db : DB) (author_id : Option Nat) (status : Option TaskStatus)
    (priority : Option TaskPriority) (deadline_before deadline_after : Option Int) :
    Except HTTPError (List Task) :=
  let q0 := db.tasks
  let q1 := match author_id with
    | some a => if a ≠ 0 then q0.filter (fun t => t.author_id == a) else q0
    | none => q0
  let q2 := match status with
    | some s => q1.filter (fun t => t.status == s)
    | none => q1
  let q3 := match priority with
    | some p => q2.filter (fun t => t.priority == p)
    | none => q2
  let q4 := match deadline_before with
    | some d => q3.filter (fun t => match t.deadline with
        | some dl => decide (dl ≥ d)
        | none => false)
    | none => q3
  let q5 := match deadline_after with
    | some d => q4.filter (fun t => match t.deadline with
        | some dl => decide (dl ≤ d)
        | none => false)
    | none => q4
  if q5 = [] then .error ⟨404, "No tasks found"⟩
  else .ok q5

/-- Autoincrement primary key for the tasks table. -/
def nextTaskId (db : DB) : Nat :=
  db.tasks.foldl (fun m t => max m t.id) 0 + 1

/-- tasks.py `create_task` (POST /tasks/): 403 unless the actor's role is in
`[ADMIN, SUPERADMIN]`; 422 unless `db.query(User).filter(User.id ==
task_data.assignee_id).first()` finds a user — when `assignee_id` is `None`
the SQL condition is `id IS NULL`, which no row satisfies. On success the
task is inserted with `author_id = current_user.id`. -/
def create_task (db : DB) (now : Int) (task_data : TaskCreate)
    (current_user : User) : Except HTTPError (DB × Task) :=
  if ¬(current_user.role = UserRole.ADMIN ∨ current_user.role = UserRole.SUPERADMIN) then
    .error ⟨403, "Admin role required"⟩
  else if (db.users.find? (fun u => some u.id == task_data.assignee_id)).isNone then
    .error ⟨422, "Assignee user doesn't exists"⟩
  else
    let taskdb : Task :=
      { id := nextTaskId db
        title := task_data.title
        description := task_data.description
        status := task_data.status
        priority := task_data.priority
        deadline := task_data.deadline
        created_at := now
        author_id := current_user.id
        assignee_id := task_data.assignee_id }
    .ok ({ db with tasks := db.tasks ++ [taskdb] }, taskdb)

/-- `setattr` loop of tasks.py `update_task`: apply exactly the supplied
fields. -/
def applyTaskUpdate (task : Task) (up : TaskUpdate) : Task :=
  { task with
    title := up.title.getD task.title
    description := match up.description with
      | some d => some d
      | none => task.description
    status := up.status.getD task.status
    priority := up.priority.getD task.priority
    deadline := match up.deadline with
      | some d => some d
      | none => task.deadline
    assignee_id := match up.assignee_id with
      | some a => some a
      | none => task.assignee_id }

/-- tasks.py `update_task` (PUT /tasks/{task_id}): 403 unless the role is in
`[ADMIN, SUPERADMIN]`; 404 when the task is absent; 403 "Access denied" when
the actor is an ADMIN who is not the task's author; otherwise apply the
supplied fields and commit. -/
def update_task (db : DB) (task_id : Nat) (up_task : TaskUpdate)
    (current_user : User) : Except HTTPError (DB × Nat) :=
  if ¬(current_user.role = UserRole.ADMIN ∨ current_user.role = UserRole.SUPERADMIN) then
    .error ⟨403, "Admin role required"⟩
  else
    match db.tasks.find? (fun t => t.id == task_id) with
    | none => .error ⟨404, "Task not found"⟩
    | some task =>
      if current_user.role = UserRole.ADMIN ∧ task.author_id ≠ current_user.id then
        .error ⟨403, "Access denied"⟩
      else
        let task' := applyTaskUpdate task up_task
        .ok ({ db with tasks := db.tasks.map (fun t => if t.id == task_id then task' else t) },
             task_id)

/-- tasks.py `delete_task` (DELETE /tasks/{task_id}): same gates as
`update_task` (404 detail differs: "Task doesn't exists"); on success the row
is removed. -/
def delete_task (db : DB) (task_id : Nat) (current_user : User) :
    Except HTTPError DB :=
  if ¬(current_user.role = UserRole.ADMIN ∨ current_user.role = UserRole.SUPERADMIN) then
    .error ⟨403, "Admin role required"⟩
  else
    match db.tasks.find? (fun t => t.id == task_id) with
    | none => .error ⟨404, "Task doesn't exists"⟩
    | some task =>
      if current_user.role = UserRole.ADMIN ∧ task.author_id ≠ current_user.id then
        .error ⟨403, "Access denied"⟩
      else
        .ok { db with tasks := db.tasks.filter (fun t => !(t == task)) }

/-- schemas.py `CommentCreate`. -/
structure CommentCreate where
  text : String
deriving DecidableEq, Repr

/-- schemas.py `CommentResponse`: text, task id, author username, timestamp. -/
structure CommentResponse where
  text : String
  task_id : Nat
  created_at : Int
  author : String
deriving DecidableEq, Repr

/-- Autoincrement primary key for the comments table. -/
def nextCommentId (db : DB) : Nat :=
  db.comments.foldl (fun m c => max m c.id) 0 + 1

/-- tasks.py `comment_to_task` (POST /tasks/{task_id}/comments): for any
authenticated actor, insert a comment row referencing the path's `task_id`
and the actor, and return the response. The body performs no task lookup and
raises no `HTTPException`; the insert succeeds even for a `task_id` with no
matching task (the SQLite engine does not enforce the foreign key). -/
def comment_to_task (db : DB) (now : Int) (task_id : Nat)
    (comment : CommentCreate) (current_user : User) :
    Except HTTPError (DB × CommentResponse) :=
  let new_comment : Comment :=
    { id := nextCommentId db
      text := comment.text
      created_at := now
      task_id := task_id
      author_id := current_user.id }
  .ok ({ db with comments := db.comments ++ [new_comment] },
       { text := comment.text
         task_id := task_id
         created_at := now
         author := current_user.username })

/-! Concrete records used to instantiate the theorems below. -/

/-- Empty store. -/
def dbEmpty : DB := ⟨[], [], []⟩

/-- A plain user. -/
def alice : User := ⟨1, "alice@x.com", "alice", hash_password "alicepw", UserRole.USER, 0⟩

/-- A second plain user. -/
def bob : User := ⟨2, "bob@x.com", "bob", hash_password "bobpw", UserRole.USER, 0⟩

/-- A superadmin. -/
def carol : User := ⟨3, "carol@x.com", "carol", hash_password "carolpw", UserRole.SUPERADMIN, 0⟩

/-- An admin. -/
def dan : User := ⟨4, "dan@x.com", "dan", hash_password "danpw", UserRole.ADMIN, 0⟩

/-- A task authored by alice (user 1), deadline 5. -/
def taskT : Task := ⟨1, "t1", none, TaskStatus.TODO, TaskPriority.MEDIUM, some 5, 0, 1, some 1⟩

/-- A populated store. -/
def dbMain : DB := ⟨[alice, bob, carol, dan], [taskT], []⟩

/-- A token created by this process. -/
def tokW : Jwt := create_token 0 7 UserRole.ADMIN

/-- The same token with a tampered signature. -/
def tokForged : Jwt := { tokW with sig := tokW.sig + 1 }

end App

namespace App

/-- `Except.isOk` on a success value. -/
@[simp] theorem except_isOk_ok {ε α : Type} (a : α) :
    (Except.ok a : Except ε α).isOk = true := rfl

/-- `Except.isOk` on an error value. -/
@[simp] theorem except_isOk_error {ε α : Type} (e : ε) :
    (Except.error e : Except ε α).isOk = false := rfl

/-- Inversion for a successful privileged update: the actor is a SUPERADMIN,
the target was found, and every step of the email → username → role → password
pipeline returned successfully, the final record being committed. -/
theorem update_user_ok_inv {db : DB} {user_id : Nat} {user_data : UpdateData}
    {current_user : User} {db' : DB} {u' : User}
    (h : update_user db user_id user_data current_user = Except.ok (db', u')) :
    current_user.role = UserRole.SUPERADMIN ∧
    ∃ u0 u1 u3, db.users.find? (fun u => u.id == user_id) = some u0 ∧
      applyEmail db user_id u0 user_data.email = Except.ok u1 ∧
      applyRole (current_user.id == user_id) (applyUsername u1 user_data.username)
        user_data.role = Except.ok u3 ∧
      applyPassword (current_user.id == user_id) current_user u3 user_data.password
        = Except.ok u' ∧
      db' = commitUser db user_id u' := by
  unfold update_user at h
  split at h
  · exact absurd h (by simp)
  · rename_i hrole
    split at h
    · exact absurd h (by simp)
    · rename_i u0 hfind
      refine ⟨not_ne_iff.mp hrole, ?_⟩
      split at h
      · exact absurd h (by simp)
      · rename_i u1 hemail
        split at h
        · exact absurd h (by simp)
        · rename_i u3 hrolestep
          split at h
          · exact absurd h (by simp)
          · rename_i u4 hpwstep
            injection h with h
            rw [Prod.mk.injEq] at h
            obtain ⟨h1, h2⟩ := h
            subst h2
            exact ⟨u0, u1, u3, hfind, hemail, hrolestep, hpwstep, h1.symm⟩

/-- A member of the committed store whose id is the committed id is the
committed record. -/
theorem commitUser_mem_id {db : DB} {user_id : Nat} {u x : User}
    (hx : x ∈ (commitUser db user_id u).users) (hid : x.id = user_id) : x = u := by
  simp only [commitUser, List.mem_map] at hx
  obtain ⟨y, hy, hyx⟩ := hx
  by_cases hc : (y.id == user_id) = true
  · rw [if_pos (by simpa using hc)] at hyx
    exact hyx.symm
  · rw [if_neg (by simpa using hc)] at hyx
    subst hyx
    exact absurd (beq_iff_eq.mpr hid) hc

/-- A successful email step preserves the record's id, password hash and
role. -/
theorem applyEmail_ok_inv {db : DB} {user_id : Nat} {u : User} {e : Option String}
    {u' : User} (h : applyEmail db user_id u e = Except.ok u') :
    u'.id = u.id ∧ u'.hashed_password = u.hashed_password ∧ u'.role = u.role := by
  cases e with
  | none =>
    simp only [applyEmail] at h
    injection h with h
    subst h
    exact ⟨rfl, rfl, rfl⟩
  | some ev =>
    simp only [applyEmail] at h
    split at h
    · split at h
      · split at h
        · exact Except.noConfusion h
        · injection h with h
          subst h
          exact ⟨rfl, rfl, rfl⟩
      · injection h with h
        subst h
        exact ⟨rfl, rfl, rfl⟩
    · injection h with h
      subst h
      exact ⟨rfl, rfl, rfl⟩

/-- The username step preserves the record's id, password hash and role. -/
theorem applyUsername_preserves (u : User) (o : Option String) :
    (applyUsername u o).id = u.id ∧
    (applyUsername u o).hashed_password = u.hashed_password ∧
    (applyUsername u o).role = u.role := by
  cases o <;> exact ⟨rfl, rfl, rfl⟩

/-- A successful role step preserves the record's id and password hash. -/
theorem applyRole_ok_inv {b : Bool} {u : User} {o : Option UserRole} {u' : User}
    (h : applyRole b u o = Except.ok u') :
    u'.id = u.id ∧ u'.hashed_password = u.hashed_password := by
  cases o with
  | none =>
    simp only [applyRole] at h
    injection h with h
    subst h
    exact ⟨rfl, rfl⟩
  | some r =>
    simp only [applyRole] at h
    split at h
    · exact Except.noConfusion h
    · injection h with h
      subst h
      exact ⟨rfl, rfl⟩

/-- A successful email → username → role pipeline preserves the record's id
and password hash. -/
theorem steps_preserve_hash {db : DB} {user_id : Nat} {u0 u1 u3 : User}
    {e un : Option String} {b : Bool} {ro : Option UserRole}
    (hemail : applyEmail db user_id u0 e = Except.ok u1)
    (hrolestep : applyRole b (applyUsername u1 un) ro = Except.ok u3) :
    u3.id = u0.id ∧ u3.hashed_password = u0.hashed_password := by
  obtain ⟨hid1, hh1, _⟩ := applyEmail_ok_inv hemail
  obtain ⟨hid3, hh3⟩ := applyRole_ok_inv hrolestep
  obtain ⟨hidu, hhu, _⟩ := applyUsername_preserves u1 un
  exact ⟨hid3.trans (hidu.trans hid1), hh3.trans (hhu.trans hh1)⟩

/-- A failing email step always fails with the duplicate-email error. -/
theorem applyEmail_error_inv {db : DB} {user_id : Nat} {u : User} {e : Option String}
    {err : HTTPError} (h : applyEmail db user_id u e = Except.error err) :
    err = ⟨400, "Email already registered"⟩ := by
  cases e with
  | none =>
    simp only [applyEmail] at h
    exact Except.noConfusion h
  | some ev =>
    simp only [applyEmail] at h
    split at h
    · split at h
      · split at h
        · injection h with h
          exact h.symm
        · exact Except.noConfusion h
      · exact Except.noConfusion h
    · exact Except.noConfusion h

/-- A failing role step always fails with the own-role error. -/
theorem applyRole_error_inv {b : Bool} {u : User} {o : Option UserRole}
    {err : HTTPError} (h : applyRole b u o = Except.error err) :
    err = ⟨400, "Superadmin cannot change own role"⟩ := by
  cases o with
  | none =>
    simp only [applyRole] at h
    exact Except.noConfusion h
  | some r =>
    simp only [applyRole] at h
    split at h
    · injection h with h
      exact h.symm
    · exact Except.noConfusion h

/-- Claim C1 (as stated) is false: a registration carrying the caller-supplied
role SUPERADMIN, on a store where the email is free, produces an actor whose
stored role is the default USER, not the caller-specified SUPERADMIN. -/
theorem C1_counterexample :
    (register dbEmpty 0 ⟨"eve@x.com", "eve", "pw", UserRole.SUPERADMIN⟩).map
        (fun p => p.2.role) = Except.ok UserRole.USER ∧
    (register dbEmpty 0 ⟨"eve@x.com", "eve", "pw", UserRole.SUPERADMIN⟩).map
        (fun p => p.1.users.map (fun u => u.role)) = Except.ok [UserRole.USER] ∧
    UserRole.USER ≠ UserRole.SUPERADMIN :=
  ⟨rfl, rfl, by decide⟩

/-- Claim C1, amended: `register` accepts a caller-supplied role in its request
schema but never reads it; whenever the email is not already taken, the new
Actor is stored with the default role USER, whatever role the caller supplied. -/
theorem C1_register_stores_default_role (db : DB) (now : Int) (user_data : UserCreate)
    (hfree : db.users.find? (fun u => u.email == user_data.email) = none) :
    (register db now user_data).map (fun p => p.2.role) = Except.ok UserRole.USER ∧
    (register db now user_data).map (fun p => p.1.users.map (fun u => u.role)) =
      Except.ok (db.users.map (fun u => u.role) ++ [UserRole.USER]) := by
  unfold register
  rw [hfree]
  exact ⟨rfl, by simp [Except.map]⟩

/-- Instantiation of `C1_register_stores_default_role` at a concrete request
carrying role ADMIN on the empty store. -/
theorem C1_register_stores_default_role_witness :
    (register dbEmpty 0 ⟨"bobby@x.com", "bobby", "pw2", UserRole.ADMIN⟩).map
        (fun p => p.2.role) = Except.ok UserRole.USER :=
  (C1_register_stores_default_role dbEmpty 0 ⟨"bobby@x.com", "bobby", "pw2", UserRole.ADMIN⟩ rfl).1

/-- Claim C5: `refresh` verifies the signature only. A token whose signature
verifies under the process key — expired or not — is refreshed into a
brand-new token with the same subject and role, issued at `now` with expiry a
full fresh window later (strictly later than the old expiry when the old token
had already expired); a token whose signature does not verify is rejected with
401 "Invalid token". -/
theorem C5_refresh_signature_only (t : Jwt) (now : Int) :
    (jwtVerifySig t KEY = true →
      refresh now (some t) = Except.ok (create_token now t.payload.sub t.payload.role) ∧
      (create_token now t.payload.sub t.payload.role).payload.sub = t.payload.sub ∧
      (create_token now t.payload.sub t.payload.role).payload.role = t.payload.role ∧
      (create_token now t.payload.sub t.payload.role).payload.iat = now ∧
      (create_token now t.payload.sub t.payload.role).payload.exp
        = now + TOKEN_EXPIRE_DAYS * daySeconds ∧
      (t.payload.exp ≤ now →
        t.payload.exp < (create_token now t.payload.sub t.payload.role).payload.exp)) ∧
    (jwtVerifySig t KEY = false →
      refresh now (some t) = Except.error ⟨401, "Invalid token"⟩) := by
  constructor
  · intro hsig
    refine ⟨?_, rfl, rfl, rfl, rfl, ?_⟩
    · simp [refresh, jwtDecode, hsig]
    · intro hexp
      simp only [create_token, jwtEncode, TOKEN_EXPIRE_DAYS, daySeconds]
      omega
  · intro hsig
    simp [refresh, jwtDecode, hsig]

set_option maxRecDepth 100000 in
/-- Instantiation of `C5_refresh_signature_only`: a process-minted token whose
embedded expiry (day 30) is already past at `now` = day 40 is still refreshed
into the fresh token issued at day 40, and the tampered variant is rejected. -/
theorem C5_refresh_signature_only_witness :
    refresh 3456000 (some tokW) = Except.ok (create_token 3456000 7 UserRole.ADMIN) ∧
    refresh 3456000 (some tokForged) = Except.error ⟨401, "Invalid token"⟩ :=
  ⟨((C5_refresh_signature_only tokW 3456000).1 (by decide)).1,
   (C5_refresh_signature_only tokForged 3456000).2 (by decide)⟩

/-- Claim C7: the two login-failure causes are indistinguishable. A login with
an unknown email and a login with a known email but non-verifying password
both produce exactly `HTTPException(401, "Invalid credentials")`, and the two
observable outcomes are equal. -/
theorem C7_login_failures_indistinguishable (db : DB) (now : Int)
    (email1 pw1 email2 pw2 : String) (u : User)
    (h1 : db.users.find? (fun x => x.email == email1) = none)
    (h2 : db.users.find? (fun x => x.email == email2) = some u)
    (h3 : verify_password pw2 u.hashed_password = false) :
    login db now ⟨email1, pw1⟩ = Except.error ⟨401, "Invalid credentials"⟩ ∧
    login db now ⟨email2, pw2⟩ = Except.error ⟨401, "Invalid credentials"⟩ ∧
    login db now ⟨email1, pw1⟩ = login db now ⟨email2, pw2⟩ := by
  have ha : login db now ⟨email1, pw1⟩ = Except.error ⟨401, "Invalid credentials"⟩ := by
    simp [login, h1]
  have hb : login db now ⟨email2, pw2⟩ = Except.error ⟨401, "Invalid credentials"⟩ := by
    simp [login, h2, h3]
  exact ⟨ha, hb, ha.trans hb.symm⟩

/-- Instantiation of `C7_login_failures_indistinguishable` on the populated
store: unknown email "zz@x.com" versus alice's email with a wrong password. -/
theorem C7_login_failures_indistinguishable_witness :
    login dbMain 0 ⟨"zz@x.com", "whatever"⟩ = Except.error ⟨401, "Invalid credentials"⟩ ∧
    login dbMain 0 ⟨"alice@x.com", "wrongpw"⟩ = Except.error ⟨401, "Invalid credentials"⟩ ∧
    login dbMain 0 ⟨"zz@x.com", "whatever"⟩ = login dbMain 0 ⟨"alice@x.com", "wrongpw"⟩ :=
  C7_login_failures_indistinguishable dbMain 0 "zz@x.com" "whatever" "alice@x.com" "wrongpw"
    alice (by decide) (by decide) (by decide)

/-- Claim C9: for an ADMIN or SUPERADMIN actor, `create_task` with
`assignee_id` absent or null fails with 422 "Assignee user doesn't exists"
(the lookup `User.id IS NULL` matches no row), even though the field is
declared optional; consequently any successfully created task has an assignee
that exists in the store. -/
theorem C9_assignee_required (db : DB) (now : Int) (task_data : TaskCreate)
    (current_user : User) :
    ((current_user.role = UserRole.ADMIN ∨ current_user.role = UserRole.SUPERADMIN) →
      task_data.assignee_id = none →
      create_task db now task_data current_user
        = Except.error ⟨422, "Assignee user doesn't exists"⟩) ∧
    (∀ db' t, create_task db now task_data current_user = Except.ok (db', t) →
      ∃ u ∈ db.users, some u.id = task_data.assignee_id) := by
  constructor
  · intro hrole hnone
    have hfind : db.users.find? (fun u => some u.id == task_data.assignee_id) = none := by
      rw [List.find?_eq_none]
      intro u _
      simp [hnone]
    simp [create_task, hrole, hfind]
  · intro db' t hok
    unfold create_task at hok
    split at hok
    · exact absurd hok (by simp)
    · split at hok
      · exact absurd hok (by simp)
      · rename_i hfind
        cases hu : db.users.find? (fun u => some u.id == task_data.assignee_id) with
        | none => rw [hu] at hfind; simp at hfind
        | some u => exact ⟨u, List.mem_of_find?_eq_some hu, by simpa using List.find?_some hu⟩

/-- Instantiation of `C9_assignee_required`: the admin creating a task with a
null assignee on the populated store receives 422. -/
theorem C9_assignee_required_witness :
    create_task dbMain 0 ⟨"t2", none, TaskStatus.TODO, TaskPriority.MEDIUM, none, none⟩ dan
      = Except.error ⟨422, "Assignee user doesn't exists"⟩ :=
  (C9_assignee_required dbMain 0 ⟨"t2", none, TaskStatus.TODO, TaskPriority.MEDIUM, none, none⟩
    dan).1 (by decide) rfl

/-- Claim C10: `comment_to_task` performs no task lookup: for any authenticated
actor and any `task_id` — here one for which no task exists — it succeeds,
stores a comment row referencing that `task_id` and the actor, and returns a
response referencing the same `task_id`; it never fails with NotFound. -/
theorem C10_comment_ignores_task_existence (db : DB) (now : Int) (task_id : Nat)
    (comment : CommentCreate) (current_user : User)
    (hno : ∀ t ∈ db.tasks, t.id ≠ task_id) :
    ∃ db' resp, comment_to_task db now task_id comment current_user = Except.ok (db', resp) ∧
      resp.task_id = task_id ∧
      ∃ c ∈ db'.comments, c.task_id = task_id ∧ c.author_id = current_user.id ∧
        c.text = comment.text := by
  refine ⟨_, _, rfl, rfl, ⟨nextCommentId db, comment.text, now, task_id, current_user.id⟩,
    ?_, rfl, rfl, rfl⟩
  simp [comment_to_task]

/-- Instantiation of `C10_comment_ignores_task_existence`: commenting on the
nonexistent task id 99 succeeds for the plain user bob. -/
theorem C10_comment_ignores_task_existence_witness :
    ∃ db' resp, comment_to_task dbMain 0 99 ⟨"hello"⟩ bob = Except.ok (db', resp) ∧
      resp.task_id = 99 ∧
      ∃ c ∈ db'.comments, c.task_id = 99 ∧ c.author_id = bob.id ∧ c.text = "hello" :=
  C10_comment_ignores_task_existence dbMain 0 99 ⟨"hello"⟩ bob (by decide)

/-- Claim C4: task modification and deletion are permitted only to ADMIN or
SUPERADMIN actors; an ADMIN is additionally rejected with 403 "Access denied"
on any existing task they did not author, while a SUPERADMIN passes the gates
on any existing task regardless of its author. -/
theorem C4_task_mutation_policy (db : DB) (task_id : Nat) (up_task : TaskUpdate)
    (current_user : User) :
    ((update_task db task_id up_task current_user).isOk = true ∨
        (delete_task db task_id current_user).isOk = true →
      current_user.role = UserRole.ADMIN ∨ current_user.role = UserRole.SUPERADMIN) ∧
    (∀ task, db.tasks.find? (fun t => t.id == task_id) = some task →
      current_user.role = UserRole.ADMIN → task.author_id ≠ current_user.id →
      update_task db task_id up_task current_user = Except.error ⟨403, "Access denied"⟩ ∧
      delete_task db task_id current_user = Except.error ⟨403, "Access denied"⟩) ∧
    (∀ task, db.tasks.find? (fun t => t.id == task_id) = some task →
      current_user.role = UserRole.SUPERADMIN →
      (update_task db task_id up_task current_user).isOk = true ∧
      (delete_task db task_id current_user).isOk = true) := by
  refine ⟨?_, ?_, ?_⟩
  · intro h
    by_contra hrole
    have h1 : update_task db task_id up_task current_user
        = Except.error ⟨403, "Admin role required"⟩ := by
      unfold update_task
      rw [if_pos hrole]
    have h2 : delete_task db task_id current_user
        = Except.error ⟨403, "Admin role required"⟩ := by
      unfold delete_task
      rw [if_pos hrole]
    rcases h with h | h
    · rw [h1] at h
      simp at h
    · rw [h2] at h
      simp at h
  · intro task hfind hrole hne
    constructor
    · unfold update_task
      rw [hfind]
      simp [hrole, hne]
    · unfold delete_task
      rw [hfind]
      simp [hrole, hne]
  · intro task hfind hrole
    constructor
    · unfold update_task
      rw [hfind]
      simp [hrole]
    · unfold delete_task
      rw [hfind]
      simp [hrole]

/-- Instantiation of `C4_task_mutation_policy`: the admin dan (id 4) may not
update or delete the task authored by user 1. -/
theorem C4_task_mutation_policy_witness :
    update_task dbMain 1 ⟨some "new", none, none, none, none, none⟩ dan
      = Except.error ⟨403, "Access denied"⟩ ∧
    delete_task dbMain 1 dan = Except.error ⟨403, "Access denied"⟩ :=
  (C4_task_mutation_policy dbMain 1 ⟨some "new", none, none, none, none, none⟩ dan).2.1
    taskT rfl rfl (by decide)

/-- Claim C6: when any rule of the privileged cross-user update fails, the
request unwinds before `db.commit()` and the store is left exactly as it was:
no partial mutation survives a failed update. -/
theorem C6_no_partial_mutation_on_failure (db : DB) (user_id : Nat)
    (user_data : UpdateData) (current_user : User)
    (hfail : (update_user db user_id user_data current_user).isOk = false) :
    update_user_store db user_id user_data current_user = db := by
  unfold update_user_store
  cases h : update_user db user_id user_data current_user with
  | ok p => rw [h] at hfail; simp at hfail
  | error e => rfl

/-- Instantiation of `C6_no_partial_mutation_on_failure`: carol's attempt to
give bob alice's email fails the duplicate-email rule and leaves the store
unchanged. -/
theorem C6_no_partial_mutation_on_failure_witness :
    update_user_store dbMain 2 ⟨some "alice@x.com", none, none, none⟩ carol = dbMain :=
  C6_no_partial_mutation_on_failure dbMain 2 ⟨some "alice@x.com", none, none, none⟩ carol
    (by decide)

/-- Claim C8 (as stated) is false: with `deadline_before = 3` the query returns
the task whose deadline is 5, which is not at or before 3 — the code filters
`Task.deadline >= deadline_before`, the reverse of the claimed direction. -/
theorem C8_counterexample :
    get_tasks dbMain none none none (some 3) none = Except.ok [taskT] ∧
    taskT.deadline = some 5 ∧ ¬((5 : Int) ≤ 3) :=
  ⟨rfl, rfl, by decide⟩

/-- Claim C8, amended: the comparisons are reversed — with `deadline_before`
set the query returns exactly the tasks having a deadline at or AFTER the
given instant, and with `deadline_after` set exactly the tasks having a
deadline at or BEFORE it (tasks with no deadline are never returned); when the
filtered result is empty the query fails with 404 "No tasks found". -/
theorem C8_deadline_filters_reversed (db : DB) (d : Int) :
    (∀ res, get_tasks db none none none (some d) none = Except.ok res →
      ∀ t, t ∈ res ↔ t ∈ db.tasks ∧ ∃ dl, t.deadline = some dl ∧ d ≤ dl) ∧
    ((¬ ∃ t ∈ db.tasks, ∃ dl, t.deadline = some dl ∧ d ≤ dl) →
      get_tasks db none none none (some d) none = Except.error ⟨404, "No tasks found"⟩) ∧
    (∀ res, get_tasks db none none none none (some d) = Except.ok res →
      ∀ t, t ∈ res ↔ t ∈ db.tasks ∧ ∃ dl, t.deadline = some dl ∧ dl ≤ d) ∧
    ((¬ ∃ t ∈ db.tasks, ∃ dl, t.deadline = some dl ∧ dl ≤ d) →
      get_tasks db none none none none (some d) = Except.error ⟨404, "No tasks found"⟩) := by
  have hmem1 : ∀ t : Task,
      (match t.deadline with | some dl => decide (dl ≥ d) | none => false) = true ↔
        ∃ dl, t.deadline = some dl ∧ d ≤ dl := by
    intro t
    cases t.deadline <;> simp [ge_iff_le]
  have hmem2 : ∀ t : Task,
      (match t.deadline with | some dl => decide (dl ≤ d) | none => false) = true ↔
        ∃ dl, t.deadline = some dl ∧ dl ≤ d := by
    intro t
    cases t.deadline <;> simp
  have hdef1 : get_tasks db none none none (some d) none =
      if db.tasks.filter
          (fun t => match t.deadline with | some dl => decide (dl ≥ d) | none => false) = []
      then Except.error ⟨404, "No tasks found"⟩
      else Except.ok (db.tasks.filter
        (fun t => match t.deadline with | some dl => decide (dl ≥ d) | none => false)) := rfl
  have hdef2 : get_tasks db none none none none (some d) =
      if db.tasks.filter
          (fun t => match t.deadline with | some dl => decide (dl ≤ d) | none => false) = []
      then Except.error ⟨404, "No tasks found"⟩
      else Except.ok (db.tasks.filter
        (fun t => match t.deadline with | some dl => decide (dl ≤ d) | none => false)) := rfl
  refine ⟨?_, ?_, ?_, ?_⟩
  · intro res hok t
    rw [hdef1] at hok
    split at hok
    · exact absurd hok (by simp)
    · injection hok with hok
      subst hok
      rw [List.mem_filter, hmem1 t]
  · intro hempty
    rw [hdef1, if_pos]
    rw [List.filter_eq_nil_iff]
    intro t ht
    rw [Bool.not_eq_true, ← Bool.not_eq_true, hmem1 t]
    intro ⟨dl, hdl, hle⟩
    exact hempty ⟨t, ht, dl, hdl, hle⟩
  · intro res hok t
    rw [hdef2] at hok
    split at hok
    · exact absurd hok (by simp)
    · injection hok with hok
      subst hok
      rw [List.mem_filter, hmem2 t]
  · intro hempty
    rw [hdef2, if_pos]
    rw [List.filter_eq_nil_iff]
    intro t ht
    rw [Bool.not_eq_true, ← Bool.not_eq_true, hmem2 t]
    intro ⟨dl, hdl, hle⟩
    exact hempty ⟨t, ht, dl, hdl, hle⟩

/-- Instantiation of `C8_deadline_filters_reversed`: with `deadline_before` =
10 and the only stored deadline being 5, the filtered set is empty and the
query returns 404. -/
theorem C8_deadline_filters_reversed_witness :
    get_tasks dbMain none none none (some 10) none
      = Except.error ⟨404, "No tasks found"⟩ :=
  (C8_deadline_filters_reversed dbMain 10).2.1 (by decide)

/-- Claim C2 (as stated) is false: the declared `SUPERADMINUserUpdate` schema
has no password field, so a request body in which the superadmin carol sends a
password change for bob (a different user) does NOT fail — validation silently
drops the password key, the update succeeds, and every stored hash, bob's
included, is left unchanged (in particular it never becomes the hash of the
requested new password). -/
theorem C2_counterexample :
    update_user_route dbMain 2 ⟨none, none, none, some ⟨"bobpw", "hacked"⟩⟩ carol
      = Except.ok (dbMain, bob) ∧
    bob.hashed_password = hash_password "bobpw" ∧
    bob.hashed_password ≠ hash_password "hacked" :=
  ⟨rfl, rfl, by decide⟩

/-- Claim C2, amended: the privileged cross-user update cannot change any
password. The declared request schema has no password field, so the handler's
payload dict never carries a password key and the password branch of
users.py lines 104-115 is dead code: a privileged update request never fails
either password rule, and a successful update leaves the target's stored hash
— and every other stored hash — unchanged. -/
theorem C2_password_change_impossible (db : DB) (user_id : Nat)
    (body : UserUpdateBody) (current_user : User) :
    (model_dump (SUPERADMINUserUpdate.model_validate body)).password = none ∧
    (∀ db' u' u0, update_user_route db user_id body current_user = Except.ok (db', u') →
      db.users.find? (fun u => u.id == user_id) = some u0 →
      u'.hashed_password = u0.hashed_password ∧
      ∀ x ∈ db'.users, ∃ y ∈ db.users, x.id = y.id ∧
        x.hashed_password = y.hashed_password) ∧
    (∀ e, update_user_route db user_id body current_user = Except.error e →
      e ≠ ⟨400, "Current password is incorrect"⟩ ∧
      e ≠ ⟨400, "Superadmin cannot change other users' passwords"⟩) := by
  refine ⟨rfl, ?_, ?_⟩
  · intro db' u' u0 hok hfind0
    unfold update_user_route at hok
    obtain ⟨hrole, v0, v1, v3, hfind, hemail, hrolestep, hpwstep, hdb⟩ :=
      update_user_ok_inv hok
    rw [hfind] at hfind0
    injection hfind0 with hv0
    subst hv0
    simp only [model_dump, SUPERADMINUserUpdate.model_validate, applyPassword] at hpwstep
    injection hpwstep with hu'
    subst hu'
    obtain ⟨hid, hh⟩ := steps_preserve_hash hemail hrolestep
    refine ⟨hh, ?_⟩
    intro x hx
    rw [hdb] at hx
    simp only [commitUser, List.mem_map] at hx
    obtain ⟨y, hy, hyx⟩ := hx
    by_cases hc : (y.id == user_id) = true
    · rw [if_pos (by simpa using hc)] at hyx
      subst hyx
      exact ⟨v0, List.mem_of_find?_eq_some hfind, hid, hh⟩
    · rw [if_neg (by simpa using hc)] at hyx
      subst hyx
      exact ⟨y, hy, rfl, rfl⟩
  · intro e herr
    unfold update_user_route update_user at herr
    simp only [model_dump, SUPERADMINUserUpdate.model_validate] at herr
    split at herr
    · injection herr with h
      subst h
      exact ⟨by decide, by decide⟩
    · split at herr
      · injection herr with h
        subst h
        exact ⟨by decide, by decide⟩
      · split at herr
        · rename_i e1 hemail
          injection herr with h
          subst h
          rw [applyEmail_error_inv hemail]
          exact ⟨by decide, by decide⟩
        · split at herr
          · rename_i e1 hrolestep
            injection herr with h
            subst h
            rw [applyRole_error_inv hrolestep]
            exact ⟨by decide, by decide⟩
          · split at herr
            · rename_i e1 hpwstep
              simp [applyPassword] at hpwstep
            · exact Except.noConfusion herr

/-- Instantiation of `C2_password_change_impossible` at a body carrying a
password change: after validation and `model_dump`, the dict the handler
receives has no password key. -/
theorem C2_password_change_impossible_witness :
    (model_dump (SUPERADMINUserUpdate.model_validate
      ⟨none, none, none, some ⟨"bobpw", "hacked"⟩⟩)).password = none :=
  (C2_password_change_impossible dbMain 2
    ⟨none, none, none, some ⟨"bobpw", "hacked"⟩⟩ carol).1

/-- Claim C3: in the privileged update, a request carrying a role change fails
whenever the target is the acting superadmin themself; and a pure role change
on any other existing user succeeds, committing that user's record with the
requested role. -/
theorem C3_role_change_rules :
    (∀ (db : DB) (user_id : Nat) (user_data : UpdateData) (current_user : User),
      user_data.role.isSome = true → current_user.id = user_id →
      (update_user db user_id user_data current_user).isOk = false) ∧
    (∀ (db : DB) (user_id : Nat) (r : UserRole) (current_user u0 : User),
      current_user.role = UserRole.SUPERADMIN → current_user.id ≠ user_id →
      db.users.find? (fun u => u.id == user_id) = some u0 →
      update_user db user_id ⟨none, none, some r, none⟩ current_user
        = Except.ok (commitUser db user_id { u0 with role := r }, { u0 with role := r }) ∧
      ∀ x ∈ (commitUser db user_id { u0 with role := r }).users,
        x.id = user_id → x.role = r) := by
  constructor
  · intro db user_id user_data current_user hsome hself
    cases hres : update_user db user_id user_data current_user with
    | error e => rfl
    | ok p =>
      obtain ⟨db', u'⟩ := p
      obtain ⟨hrole, u0, u1, u3, hfind, hemail, hrolestep, hpwstep, hdb⟩ :=
        update_user_ok_inv hres
      obtain ⟨r, hr⟩ := Option.isSome_iff_exists.mp hsome
      rw [hr] at hrolestep
      simp only [applyRole] at hrolestep
      rw [beq_iff_eq.mpr hself] at hrolestep
      simp at hrolestep
  · intro db user_id r current_user u0 hrole hne hfind
    have hbeq : (current_user.id == user_id) = false := beq_eq_false_iff_ne.mpr hne
    constructor
    · unfold update_user
      rw [if_neg (by simp [hrole]), hfind]
      simp only [applyEmail, applyUsername, applyRole, applyPassword, hbeq]
      simp
    · intro x hx hid
      rw [commitUser_mem_id hx hid]

/-- Instantiation of `C3_role_change_rules`: the superadmin carol promotes bob
(id 2) to ADMIN; the request succeeds and commits bob's record with the new
role. -/
theorem C3_role_change_rules_witness :
    update_user dbMain 2 ⟨none, none, some UserRole.ADMIN, none⟩ carol
      = Except.ok (commitUser dbMain 2 { bob with role := UserRole.ADMIN },
                   { bob with role := UserRole.ADMIN }) :=
  (C3_role_change_rules.2 dbMain 2 UserRole.ADMIN carol bob rfl (by decide) rfl).1

end App
